import Mathlib

/-!
Verification of the gesture-recognition core of the Hand-gesture repository.

The Python source defines several methods twice inside `GestureDatabase`
(`src/core/gesture_database.py`); in Python the later definition wins, so the
effective implementations are `_normalize_landmarks` (lines 491-504),
`find_similar_gesture` (lines 506-564), `add_gesture` (lines 454-471).  The
frame channel is `CameraOperator._update_frame` / `get_frame`
(`src/core/camera_operator.py`, a `Queue(maxsize=1)` drained before every
`put`), and the cooldown gate is `SignToSpeechApp._handle_gesture_recognition`
(`src/main.py`, lines 171-184).

Modelling choices, each noted at the definition it concerns:
* coordinates are real numbers (the source computes with IEEE floats; the
  claims under study are about the exact arithmetic the code writes down);
* a flat landmark list `[x1, y1, z1, x2, ...]` is `List ℝ`, and numpy's
  `reshape(-1, 3)` is `reshape3`, which fails (as numpy raises) when the
  length is not a multiple of 3;
* a Python exception caught by a `try/except` is an `Option.none` result;
* `np.partition(d, k-1)[:k]` returns the `k` smallest elements of `d` in
  unspecified order, and the code only takes their mean, which is invariant
  under reordering, so it is modelled as the first `k` elements of the
  ascending sort;
* `int(len(distances) * 0.8)` is `4 * n / 5` in ℕ: for every list length the
  float product `n * 0.8` truncates to `⌊4n/5⌋` (the fractional part of the
  exact product is bounded away from 1).
-/

namespace HandGesture

/-- One 3D landmark point `(x, y, z)`. -/
abbrev Pt : Type := ℝ × ℝ × ℝ

/-- The origin point `(0, 0, 0)`. -/
noncomputable def p0 : Pt := ((0 : ℝ), (0 : ℝ), (0 : ℝ))

/-- One stored gesture record: the fields of the dictionaries kept in
`GestureDatabase.gestures` (`name`, `landmarks`, `message`, `created_at`). -/
structure Gesture where
  name : String
  landmarks : List ℝ
  message : String
  created_at : ℤ

/-- Pointwise subtraction of two landmarks (numpy `landmarks - wrist`,
row by row). -/
noncomputable def psub (p q : Pt) : Pt :=
  (p.1 - q.1, p.2.1 - q.2.1, p.2.2 - q.2.2)

/-- Division of every coordinate of one landmark by a scalar
(numpy `centered / scale`, row by row). -/
noncomputable def pdiv (p : Pt) (s : ℝ) : Pt :=
  (p.1 / s, p.2.1 / s, p.2.2 / s)

/-- Euclidean norm of a 3D point: `np.linalg.norm` of one row. -/
noncomputable def norm3 (p : Pt) : ℝ :=
  Real.sqrt (p.1 ^ 2 + p.2.1 ^ 2 + p.2.2 ^ 2)

/-- Euclidean distance between two landmarks: `np.linalg.norm(diff, axis=1)`
for one row of the difference array. -/
noncomputable def dist3 (p q : Pt) : ℝ := norm3 (psub p q)

/-- Numpy `np.array(landmarks).reshape(-1, 3)`: groups a flat coordinate list
into triples, failing (numpy raises `ValueError`) when the length is not a
multiple of 3. -/
def reshape3 : List ℝ → Option (List Pt)
  | [] => some []
  | x :: y :: z :: rest => (reshape3 rest).map (fun l => (x, y, z) :: l)
  | _ => none

/-- `GestureDatabase._normalize_landmarks` (effective definition, lines
491-504), after the reshape: center every point on point 0 (the wrist), take
the Euclidean norm of the centered point at index 9 (middle-finger base) as
the scale, divide by it when it is strictly positive, otherwise keep the
centered points.  The two indexing operations raise `IndexError` in Python
when the list is too short; those paths are `none`. -/
noncomputable def normalizePoints (pts : List Pt) : Option (List Pt) :=
  match pts.head? with
  | none => none
  | some wrist =>
    let centered := pts.map (fun p => psub p wrist)
    match centered[9]? with
    | none => none
    | some ref =>
      if 0 < norm3 ref then some (centered.map (fun p => pdiv p (norm3 ref)))
      else some centered

/-- `_normalize_landmarks` on a flat list: reshape then normalize; any raised
exception is `none`. -/
noncomputable def normalizeFlat (l : List ℝ) : Option (List Pt) :=
  (reshape3 l).bind normalizePoints

/-- The per-joint Euclidean distances between two normalized landmark lists:
`np.linalg.norm(diff.reshape(-1, 3), axis=1)` (subtracting the flat length-63
arrays and reshaping to 21 rows equals pointwise subtraction of the triples). -/
noncomputable def jointDistances (normQ sn : List Pt) : List ℝ :=
  List.zipWith dist3 normQ sn

/-- The `k` smallest elements of a list of distances:
`np.partition(distances, k-1)[:k]` (see the header note). -/
noncomputable def lowestK (k : ℕ) (l : List ℝ) : List ℝ :=
  (List.insertionSort (· ≤ ·) l).take k

/-- `np.mean`: the sum divided by the length. -/
noncomputable def meanR (l : List ℝ) : ℝ := l.sum / l.length

/-- The body of the `try` block in `find_similar_gesture` (lines 536-550) for
one stored entry: normalize the stored landmarks, subtract (numpy raises on a
length mismatch, hence the length guard), take per-joint distances, average
the lowest `k = max(1, int(0.8 * len))` of them and return
`1 / (1 + avg_distance)`; `none` is the `except` path. -/
noncomputable def entrySimilarity (normQ : List Pt) (stored : List ℝ) : Option ℝ :=
  match normalizeFlat stored with
  | none => none
  | some sn =>
    if sn.length = normQ.length then
      let distances := jointDistances normQ sn
      let k := max 1 (4 * distances.length / 5)
      some (1 / (1 + meanR (lowestK k distances)))
    else none

/-- One iteration of the `for gesture_id, gesture in self.gestures.items()`
loop (lines 532-561): skip entries whose landmark array is empty, skip entries
whose comparison raises, and replace the best seen so far exactly when the new
similarity is strictly greater. -/
noncomputable def bestStep (normQ : List Pt) (acc : Option (String × Gesture) × ℝ)
    (entry : String × Gesture) : Option (String × Gesture) × ℝ :=
  if entry.2.landmarks.isEmpty then acc
  else
    match entrySimilarity normQ entry.2.landmarks with
    | none => acc
    | some s => if acc.2 < s then (some entry, s) else acc

/-- The whole search loop of `find_similar_gesture`, started from
`best_match = None`, `best_score = -1`; the library is the `gestures` dict in
its fixed insertion-iteration order. -/
noncomputable def bestMatch (normQ : List Pt) (gestures : List (String × Gesture)) :
    Option (String × Gesture) × ℝ :=
  gestures.foldl (bestStep normQ) (none, -1)

/-- `GestureDatabase.find_similar_gesture` (effective definition, lines
506-564): reject an empty query or an empty library, normalize the query
(`none` on failure), run the search loop, and return the best entry when
`best_score >= threshold`, else `None`.  The returned pair carries the matched
gesture id, which the code adds to the returned dict under the key `id`. -/
noncomputable def find_similar_gesture (landmarks : List ℝ)
    (gestures : List (String × Gesture)) (threshold : ℝ) :
    Option (String × Gesture) :=
  if landmarks.isEmpty || gestures.isEmpty then none
  else
    match normalizeFlat landmarks with
    | none => none
    | some normQ =>
      if threshold ≤ (bestMatch normQ gestures).2 then (bestMatch normQ gestures).1
      else none

/-- Python dict assignment `self.gestures[gesture_id] = {...}`: replace the
record in place when the key exists (a Python dict keeps the position of an
overwritten key), else append. -/
def setKey (db : List (String × Gesture)) (gid : String) (g : Gesture) :
    List (String × Gesture) :=
  if db.any (fun p => p.1 = gid) then
    db.map (fun p => if p.1 = gid then (gid, g) else p)
  else db ++ [(gid, g)]

/-- `GestureDatabase.add_gesture` (effective definition, lines 454-471) as a
state function.  `saveOk` models the outcome of the `_save_gestures` disk
write, `t` the `int(time.time())` stamp.  Result: the returned boolean, the
new in-memory mapping, and whether a save was attempted at all. -/
def addGesture (db : List (String × Gesture)) (gid name : String)
    (landmarks : List ℝ) (message : String) (t : ℤ) (saveOk : Bool) :
    Bool × List (String × Gesture) × Bool :=
  match landmarks with
  | [] => (false, db, false)
  | _ :: _ =>
    (saveOk, setKey db gid ⟨name, landmarks, message, t⟩, true)

/-- `CameraOperator._update_frame`, lines 121-128: the slot of the
`Queue(maxsize=1)` is drained (`get_nowait` until empty) and the new frame is
put, so the net effect of one publish is that the slot holds exactly the new
frame.  Total function: the producer never blocks. -/
def publish {α : Type} (slot : Option α) (f : α) : Option α :=
  match slot with
  | some _ => some f
  | none => some f

/-- `CameraOperator.get_frame`, lines 138-146: return the queued frame if the
queue is non-empty, else `None`; afterwards the slot is empty.  Total
function: the consumer never blocks. -/
def tryTake {α : Type} (slot : Option α) : Option α × Option α :=
  match slot with
  | some f => (some f, none)
  | none => (none, none)

/-- A sequence of consecutive publishes with no intervening take. -/
def publishAll {α : Type} (slot : Option α) (fs : List α) : Option α :=
  fs.foldl publish slot

/-- The cooldown state of `SignToSpeechApp`: `self.current_gesture`
(initially `None`) and `self.last_gesture_time` (initially `0`).  Time is
modelled by ℚ. -/
structure AppState where
  current_gesture : Option String
  last_gesture_time : ℚ

/-- `SignToSpeechApp._handle_gesture_recognition` (`src/main.py`, lines
171-184): the side effect (UI update and speech) fires exactly when the
matched id differs from `current_gesture` or strictly more than 5 seconds
passed since `last_gesture_time`; on fire both fields update.  The boolean
records whether the side effect fired. -/
def handleGesture (st : AppState) (gid : String) (now : ℚ) : AppState × Bool :=
  if st.current_gesture ≠ some gid ∨ 5 < now - st.last_gesture_time then
    (⟨some gid, now⟩, true)
  else (st, false)

/-- Feed a sequence of confirmed matches `(id, time)` through the cooldown
gate, collecting which of them fired. -/
def runMatches (st : AppState) : List (String × ℚ) → AppState × List Bool
  | [] => (st, [])
  | (gid, t) :: rest =>
    let r := handleGesture st gid t
    let out := runMatches r.1 rest
    (out.1, r.2 :: out.2)

/-- A zero query landmark list (21 points at the origin, 63 scalars), used to
instantiate theorems at a concrete input. -/
noncomputable def zeroFlat : List ℝ := List.replicate 63 0

/-- The normalization of `zeroFlat`: 21 origin points. -/
noncomputable def zeroNormQ : List Pt := List.replicate 21 p0

/-- A concrete well-formed stored gesture whose landmark array is `zeroFlat`. -/
noncomputable def G0 : Gesture := ⟨"g", zeroFlat, "msg", 0⟩

/-- A concrete malformed stored gesture: two scalars cannot be reshaped into
3D points, so comparing against it raises in the source. -/
noncomputable def Gbad : Gesture := ⟨"bad", [1, 2], "msg", 0⟩

/-- A concrete 21-point list whose centered reference joint (index 9) has
norm 1; normalization is the identity on it. -/
noncomputable def ptsC9 : List Pt :=
  [p0, p0, p0, p0, p0, p0, p0, p0, p0, ((1 : ℝ), (0 : ℝ), (0 : ℝ)),
   p0, p0, p0, p0, p0, p0, p0, p0, p0, p0, p0]

/-! ### Helper lemmas -/

@[simp]
theorem psub_self (p : Pt) : psub p p = p0 := by
  simp [psub, p0]

@[simp]
theorem psub_p0 (p : Pt) : psub p p0 = p := by
  simp [psub, p0]

@[simp]
theorem pdiv_p0 (s : ℝ) : pdiv p0 s = p0 := by
  simp [pdiv, p0]

@[simp]
theorem pdiv_one (p : Pt) : pdiv p 1 = p := by
  simp [pdiv]

theorem norm3_nonneg (p : Pt) : 0 ≤ norm3 p := Real.sqrt_nonneg _

@[simp]
theorem norm3_p0 : norm3 p0 = 0 := by
  simp [norm3, p0]

theorem norm3_pdiv (p : Pt) {s : ℝ} (hs : 0 < s) :
    norm3 (pdiv p s) = norm3 p / s := by
  unfold norm3 pdiv
  have h : (p.1 / s) ^ 2 + (p.2.1 / s) ^ 2 + (p.2.2 / s) ^ 2
      = (p.1 ^ 2 + p.2.1 ^ 2 + p.2.2 ^ 2) / s ^ 2 := by ring
  rw [h, Real.sqrt_div (by positivity), Real.sqrt_sq hs.le]

theorem dist3_self (p : Pt) : dist3 p p = 0 := by
  simp [dist3]

theorem dist3_nonneg (p q : Pt) : 0 ≤ dist3 p q := norm3_nonneg _

theorem reshape3_of_length {l : List ℝ} {n : ℕ} (h : l.length = 3 * n) :
    ∃ pts, reshape3 l = some pts ∧ pts.length = n := by
  induction n generalizing l with
  | zero =>
    have : l = [] := List.length_eq_zero.mp (by omega)
    subst this
    exact ⟨[], rfl, rfl⟩
  | succ n ih =>
    match l, h with
    | x :: y :: z :: rest, h =>
      have hr : rest.length = 3 * n := by simp at h; omega
      obtain ⟨pts, hpts, hlen⟩ := ih hr
      exact ⟨(x, y, z) :: pts, by simp [reshape3, hpts], by simp [hlen]⟩

theorem reshape3_replicate_zero (n : ℕ) :
    reshape3 (List.replicate (3 * n) (0 : ℝ)) = some (List.replicate n p0) := by
  induction n with
  | zero => simp [reshape3]
  | succ n ih =>
    have h3 : 3 * (n + 1) = 3 * n + 1 + 1 + 1 := by ring
    rw [h3, List.replicate_succ, List.replicate_succ, List.replicate_succ]
    simp [reshape3, ih, List.replicate_succ, p0]

theorem normalizePoints_replicate_zero :
    normalizePoints (List.replicate 21 p0) = some (List.replicate 21 p0) := by
  unfold normalizePoints
  simp [List.head?_replicate]

theorem normalizeFlat_zeroFlat : normalizeFlat zeroFlat = some zeroNormQ := by
  have h : zeroFlat = List.replicate (3 * 21) (0 : ℝ) := by norm_num [zeroFlat]
  rw [normalizeFlat, h, reshape3_replicate_zero, Option.some_bind, zeroNormQ]
  exact normalizePoints_replicate_zero

theorem jointDistances_self (l : List Pt) :
    jointDistances l l = List.replicate l.length 0 := by
  induction l with
  | nil => rfl
  | cons a t ih =>
    simp [jointDistances, dist3_self, List.replicate_succ]

theorem insertionSort_replicate_zero (n : ℕ) :
    List.insertionSort (· ≤ ·) (List.replicate n (0 : ℝ)) = List.replicate n 0 :=
  List.Sorted.insertionSort_eq (by simp [List.Sorted])

theorem meanR_replicate_zero (n : ℕ) : meanR (List.replicate n (0 : ℝ)) = 0 := by
  simp [meanR, List.sum_replicate]

/-- Comparing an entry against a query whose normalization equals the entry's
own normalized landmarks yields similarity exactly 1: every per-joint distance
is 0, so the trimmed average distance is 0 and `1 / (1 + 0) = 1`. -/
theorem entrySimilarity_self {stored : List ℝ} {sn : List Pt}
    (h : normalizeFlat stored = some sn) :
    entrySimilarity sn stored = some 1 := by
  unfold entrySimilarity
  rw [h]
  simp [jointDistances_self, lowestK, insertionSort_replicate_zero,
    List.take_replicate, meanR_replicate_zero]

theorem lowestK_subset {k : ℕ} {l : List ℝ} : lowestK k l ⊆ l := fun _ hx =>
  (List.perm_insertionSort (· ≤ ·) l).subset (List.take_subset _ _ hx)

theorem meanR_nonneg {l : List ℝ} (h : ∀ x ∈ l, 0 ≤ x) : 0 ≤ meanR l :=
  div_nonneg (List.sum_nonneg h) (by positivity)

theorem jointDistances_nonneg (normQ sn : List Pt) :
    ∀ x ∈ jointDistances normQ sn, 0 ≤ x := by
  unfold jointDistances
  induction normQ generalizing sn with
  | nil => simp
  | cons a t ih =>
    cases sn with
    | nil => simp
    | cons b u =>
      intro x hx
      rcases (by simpa using hx : x = dist3 a b ∨ x ∈ List.zipWith dist3 t u) with h | h
      · exact h ▸ dist3_nonneg a b
      · exact ih u x h

theorem inv_one_add_bounds {a : ℝ} (ha : 0 ≤ a) :
    0 < 1 / (1 + a) ∧ 1 / (1 + a) ≤ 1 := by
  constructor
  · positivity
  · rw [div_le_one (by linarith)]; linarith

/-- Every similarity the search loop actually computes lies in `(0, 1]`. -/
theorem entrySimilarity_bounds {normQ : List Pt} {stored : List ℝ} {s : ℝ}
    (h : entrySimilarity normQ stored = some s) : 0 < s ∧ s ≤ 1 := by
  simp only [entrySimilarity] at h
  split at h
  · exact absurd h (by simp)
  next sn heq =>
    split at h
    · rw [Option.some_inj] at h
      subst h
      exact inv_one_add_bounds (meanR_nonneg fun x hx =>
        jointDistances_nonneg normQ sn x (lowestK_subset hx))
    · exact absurd h (by simp)

theorem publishAll_eq_getLast {α : Type} (s : Option α) (fs : List α) (h : fs ≠ []) :
    publishAll s fs = some (fs.getLast h) := by
  induction fs generalizing s with
  | nil => exact absurd rfl h
  | cons a t ih =>
    cases t with
    | nil => cases s <;> simp [publishAll, publish]
    | cons b u =>
      have hne : b :: u ≠ [] := by simp
      rw [List.getLast_cons hne]
      simpa only [publishAll, List.foldl_cons] using ih (publish s a) hne

theorem bestStep_skip {normQ : List Pt} {acc : Option (String × Gesture) × ℝ}
    {bid : String} {bad : Gesture}
    (hbad : bad.landmarks = [] ∨ entrySimilarity normQ bad.landmarks = none) :
    bestStep normQ acc (bid, bad) = acc := by
  rcases hbad with h | h
  · simp [bestStep, h]
  · by_cases he : bad.landmarks.isEmpty
    · simp [bestStep, he]
    · simp [bestStep, he, h]

theorem reshape3_pair : reshape3 ([1, 2] : List ℝ) = none := by
  simp [reshape3]

/-- On any list of at least 10 points, `normalizePoints` succeeds and follows
exactly the center-then-conditionally-scale recipe of the source. -/
theorem normalizePoints_char (pts : List Pt) (h : 10 ≤ pts.length) :
    ∃ w ref,
      pts.head? = some w ∧
      (pts.map (fun p => psub p w))[9]? = some ref ∧
      normalizePoints pts =
        some (if 0 < norm3 ref then
                (pts.map (fun p => psub p w)).map (fun p => pdiv p (norm3 ref))
              else pts.map (fun p => psub p w)) := by
  have hne : pts ≠ [] := by
    intro h0
    subst h0
    simp at h
  have hw : pts.head? = some (pts.head hne) := List.head?_eq_head hne
  have h9 : 9 < (pts.map (fun p => psub p (pts.head hne))).length := by
    simpa using by omega
  refine ⟨pts.head hne, (pts.map (fun p => psub p (pts.head hne)))[9], hw,
    List.getElem?_eq_getElem h9, ?_⟩
  simp only [normalizePoints, hw, List.getElem?_eq_getElem h9]
  exact (apply_ite some _ _ _).symm

theorem normalizePoints_length {pts res : List Pt}
    (h : normalizePoints pts = some res) : res.length = pts.length := by
  simp only [normalizePoints] at h
  split at h
  · exact absurd h (by simp)
  next w hw =>
    split at h
    · exact absurd h (by simp)
    next ref href =>
      split at h <;> rw [Option.some_inj] at h <;> subst h <;> simp

/-- Reshaping then normalizing a flat 63-coordinate list always succeeds and
yields 21 points. -/
theorem normalizeFlat_of_length {l : List ℝ} (h : l.length = 63) :
    ∃ sn, normalizeFlat l = some sn ∧ sn.length = 21 := by
  obtain ⟨pts, hpts, hlen⟩ := reshape3_of_length (l := l) (n := 21) (by omega)
  obtain ⟨w, ref, hw, href, hnorm⟩ := normalizePoints_char pts (by omega)
  have hpl := normalizePoints_length hnorm
  refine ⟨_, by rw [normalizeFlat, hpts, Option.some_bind, hnorm], ?_⟩
  rw [hpl, hlen]

theorem zeroFlat_ne_nil : zeroFlat ≠ [] := by simp [zeroFlat]

theorem entrySimilarity_zero : entrySimilarity zeroNormQ zeroFlat = some 1 :=
  entrySimilarity_self normalizeFlat_zeroFlat

theorem G0_landmarks : G0.landmarks = zeroFlat := rfl

theorem G0_isEmpty : G0.landmarks.isEmpty = false := by
  simp [G0_landmarks, zeroFlat]

theorem bestMatch_zero_single :
    bestMatch zeroNormQ [("g", G0)] = (some ("g", G0), 1) := by
  have he : entrySimilarity zeroNormQ G0.landmarks = some 1 := by
    rw [G0_landmarks]; exact entrySimilarity_zero
  simp [bestMatch, bestStep, he, G0_isEmpty]

/-! ### Claim theorems -/

/-- Claim C10: calling the effective `add_gesture` with an empty landmark
list returns `False`, leaves the in-memory gesture mapping unchanged, and
attempts no save of the persisted store. -/
theorem addGesture_empty_rejected (db : List (String × Gesture))
    (gid name message : String) (t : ℤ) (saveOk : Bool) :
    addGesture db gid name [] message t saveOk = (false, db, false) := rfl

/-- Claim C4: the frame channel is a single-slot overwrite buffer: after any
non-empty sequence of consecutive publishes with no intervening take, the
slot holds exactly the most recently published frame, one take succeeds and
returns it, the following take reports empty, and both operations are total
functions of the state (neither blocks). -/
theorem frameChannel_single_slot {α : Type} (s : Option α) (fs : List α)
    (h : fs ≠ []) :
    publishAll s fs = some (fs.getLast h) ∧
    tryTake (publishAll s fs) = (some (fs.getLast h), none) ∧
    tryTake ((tryTake (publishAll s fs)).2) = (none, none) := by
  have hp := publishAll_eq_getLast s fs h
  exact ⟨hp, by rw [hp]; rfl, by rw [hp]; rfl⟩

/-- Witness for C4: three publishes of frames 1, 2, 3 into an empty slot. -/
theorem frameChannel_single_slot_witness :
    publishAll (none : Option ℕ) [1, 2, 3] = some 3 ∧
    tryTake (publishAll (none : Option ℕ) [1, 2, 3]) = (some 3, none) ∧
    tryTake ((tryTake (publishAll (none : Option ℕ) [1, 2, 3])).2) = (none, none) :=
  frameChannel_single_slot (none : Option ℕ) [1, 2, 3] (by simp)

/-- Claim C5: the cooldown gate fires exactly when the matched identifier
differs from the last-confirmed one or strictly more than 5 seconds elapsed
since the last-confirmed timestamp; on firing both stored fields update; and
three matches of the same identifier inside the cooldown window fire exactly
once. -/
theorem cooldown_gate (st : AppState) (gid : String) (now : ℚ)
    (st0 : AppState) (t1 t2 t3 : ℚ)
    (h0 : st0.current_gesture ≠ some "A")
    (h12 : t2 - t1 ≤ 5) (h13 : t3 - t1 ≤ 5) :
    ((handleGesture st gid now).2 = true ↔
      (st.current_gesture ≠ some gid ∨ 5 < now - st.last_gesture_time)) ∧
    ((handleGesture st gid now).2 = true →
      (handleGesture st gid now).1 = ⟨some gid, now⟩) ∧
    (runMatches st0 [("A", t1), ("A", t2), ("A", t3)]).2.count true = 1 := by
  have hfire : handleGesture st0 "A" t1 = (⟨some "A", t1⟩, true) := by
    unfold handleGesture
    rw [if_pos (Or.inl h0)]
  have hskip2 : handleGesture ⟨some "A", t1⟩ "A" t2 = (⟨some "A", t1⟩, false) := by
    unfold handleGesture
    rw [if_neg (by simp; linarith)]
  have hskip3 : handleGesture ⟨some "A", t1⟩ "A" t3 = (⟨some "A", t1⟩, false) := by
    unfold handleGesture
    rw [if_neg (by simp; linarith)]
  refine ⟨?_, ?_, ?_⟩
  · unfold handleGesture
    split <;> simp_all
  · unfold handleGesture
    split <;> simp_all
  · simp [runMatches, hfire, hskip2, hskip3]

/-- Witness for C5: from the initial state, matches of the identifier `A` at
times 10, 12, 14 with a 5-second cooldown fire exactly once. -/
theorem cooldown_gate_witness :
    (runMatches ⟨none, 0⟩ [("A", 10), ("A", 12), ("A", 14)]).2.count true = 1 :=
  (cooldown_gate ⟨none, 0⟩ "A" 0 ⟨none, 0⟩ 10 12 14 (by simp) (by norm_num)
    (by norm_num)).2.2

/-- Claim C6: the acceptance test is inclusive at the threshold: when the
search loop ends with best entry `e` and best score `s`, a score exactly
equal to the threshold returns `e`, and a score strictly below it returns no
match. -/
theorem threshold_inclusive (landmarks : List ℝ) (gestures : List (String × Gesture))
    (threshold : ℝ) (normQ : List Pt) (e : String × Gesture) (s : ℝ)
    (h1 : landmarks ≠ []) (h2 : gestures ≠ [])
    (hn : normalizeFlat landmarks = some normQ)
    (hb : bestMatch normQ gestures = (some e, s)) :
    (s = threshold → find_similar_gesture landmarks gestures threshold = some e) ∧
    (s < threshold → find_similar_gesture landmarks gestures threshold = none) := by
  unfold find_similar_gesture
  rw [if_neg (by simp [h1, h2])]
  simp only [hn, hb]
  constructor
  · intro h
    subst h
    rw [if_pos le_rfl]
  · intro h
    rw [if_neg (not_le.mpr h)]

/-- Witness for C6: a zero query against a one-entry library scores exactly
1; threshold 1 accepts that entry, threshold 2 rejects it. -/
theorem threshold_inclusive_witness :
    find_similar_gesture zeroFlat [("g", G0)] 1 = some ("g", G0) ∧
    find_similar_gesture zeroFlat [("g", G0)] 2 = none := by
  have ha := threshold_inclusive zeroFlat [("g", G0)] 1 zeroNormQ ("g", G0) 1
    zeroFlat_ne_nil (by simp) normalizeFlat_zeroFlat bestMatch_zero_single
  have hb := threshold_inclusive zeroFlat [("g", G0)] 2 zeroNormQ ("g", G0) 1
    zeroFlat_ne_nil (by simp) normalizeFlat_zeroFlat bestMatch_zero_single
  exact ⟨ha.1 rfl, hb.2 (by norm_num)⟩

/-- Claim C7: best-match selection uses strict greater-than, so when two
library entries attain the same similarity score the first-seen entry wins;
the search is a pure function of the query and the library order, hence
identical across repeated runs. -/
theorem tiebreak_first_seen (normQ : List Pt) (id1 id2 : String) (g1 g2 : Gesture)
    (s : ℝ) (h1 : g1.landmarks.isEmpty = false)
    (e1 : entrySimilarity normQ g1.landmarks = some s)
    (e2 : entrySimilarity normQ g2.landmarks = some s) :
    bestMatch normQ [(id1, g1), (id2, g2)] = (some (id1, g1), s) := by
  have hs : (0 : ℝ) < s := (entrySimilarity_bounds e1).1
  have step1 : bestStep normQ (none, -1) (id1, g1) = (some (id1, g1), s) := by
    simp only [bestStep, h1, Bool.false_eq_true, if_false, e1]
    rw [if_pos (by linarith)]
  have step2 : bestStep normQ (some (id1, g1), s) (id2, g2) = (some (id1, g1), s) := by
    by_cases he : g2.landmarks.isEmpty
    · simp [bestStep, he]
    · simp only [bestStep, he, Bool.false_eq_true, if_false, e2]
      rw [if_neg (lt_irrefl s)]
  simp only [bestMatch, List.foldl_cons, List.foldl_nil, step1, step2]

/-- Witness for C7: two identical zero entries under different identifiers
both score 1; the first-seen identifier is returned. -/
theorem tiebreak_first_seen_witness :
    bestMatch zeroNormQ [("a", G0), ("b", G0)] = (some ("a", G0), 1) := by
  have he : entrySimilarity zeroNormQ G0.landmarks = some 1 := by
    rw [G0_landmarks]; exact entrySimilarity_zero
  exact tiebreak_first_seen zeroNormQ "a" "b" G0 G0 1 G0_isEmpty he he

/-- Claim C8: an entry whose comparison fails (empty landmark array, or
stored landmarks whose normalization or distance computation raises) is
skipped without affecting the rest of the search: the loop result and the
overall match result are the same as if the entry were absent. -/
theorem skip_malformed (normQ : List Pt) (pre post : List (String × Gesture))
    (bid : String) (bad : Gesture)
    (hbad : bad.landmarks = [] ∨ entrySimilarity normQ bad.landmarks = none) :
    bestMatch normQ (pre ++ (bid, bad) :: post) = bestMatch normQ (pre ++ post) ∧
    ∀ (landmarks : List ℝ) (threshold : ℝ),
      normalizeFlat landmarks = some normQ →
      find_similar_gesture landmarks (pre ++ (bid, bad) :: post) threshold =
        find_similar_gesture landmarks (pre ++ post) threshold := by
  have hfold : bestMatch normQ (pre ++ (bid, bad) :: post) = bestMatch normQ (pre ++ post) := by
    unfold bestMatch
    rw [List.foldl_append, List.foldl_append, List.foldl_cons, bestStep_skip hbad]
  refine ⟨hfold, ?_⟩
  intro landmarks threshold hn
  by_cases hl : landmarks = []
  · subst hl
    unfold find_similar_gesture
    simp
  · by_cases hpp : pre ++ post = []
    · have hLbest : bestMatch normQ (pre ++ (bid, bad) :: post) = (none, -1) := by
        rw [hfold, hpp]
        rfl
      unfold find_similar_gesture
      rw [if_neg (by simp [hl]), if_pos (by simp [hpp])]
      simp only [hn, hLbest]
      split <;> rfl
    · unfold find_similar_gesture
      rw [if_neg (by simp [hl]), if_neg (by simp [hl, hpp])]
      simp only [hn, hfold]

/-- Witness for C8: a stored entry with the 2-scalar landmark array `[1, 2]`
(not reshapable into 3D points) is skipped and the match result is the same
as without it. -/
theorem skip_malformed_witness :
    bestMatch zeroNormQ [("g", G0), ("bad", Gbad)] = bestMatch zeroNormQ [("g", G0)] ∧
    find_similar_gesture zeroFlat [("g", G0), ("bad", Gbad)] 1 =
      find_similar_gesture zeroFlat [("g", G0)] 1 := by
  have hbad : Gbad.landmarks = [] ∨ entrySimilarity zeroNormQ Gbad.landmarks = none := by
    right
    show entrySimilarity zeroNormQ [1, 2] = none
    simp [entrySimilarity, normalizeFlat, reshape3_pair]
  have h := skip_malformed zeroNormQ [("g", G0)] [] "bad" Gbad hbad
  exact ⟨h.1, h.2 zeroFlat 1 normalizeFlat_zeroFlat⟩

/-- Claim C1: for a 21-point normalized query and a 21-point stored entry,
the per-entry comparison produces the 21 per-joint Euclidean distances,
averages only the lowest `k = max(1, floor(0.8 * 21)) = 16` of them, and
returns the similarity `1 / (1 + avg_distance)`, which lies in `(0, 1]` and
is strictly decreasing in the average distance. -/
theorem per_entry_similarity (normQ : List Pt) (stored : List ℝ)
    (hq : normQ.length = 21) (hs : stored.length = 63) :
    ∃ sn, normalizeFlat stored = some sn ∧ sn.length = 21 ∧
      (jointDistances normQ sn).length = 21 ∧
      entrySimilarity normQ stored =
        some (1 / (1 + meanR (lowestK 16 (jointDistances normQ sn)))) ∧
      (∀ s, entrySimilarity normQ stored = some s → 0 < s ∧ s ≤ 1) ∧
      (∀ a b : ℝ, 0 ≤ a → a < b → 1 / (1 + b) < 1 / (1 + a)) := by
  obtain ⟨sn, hn, hlen⟩ := normalizeFlat_of_length hs
  have hd : (jointDistances normQ sn).length = 21 := by
    simp [jointDistances, hlen, hq]
  refine ⟨sn, hn, hlen, hd, ?_, fun s h => entrySimilarity_bounds h, ?_⟩
  · unfold entrySimilarity
    simp only [hn, hlen, hq, hd]
    norm_num
  · intro a b ha hab
    exact one_div_lt_one_div_of_lt (by linarith) (by linarith)

/-- Witness for C1 at a concrete input: the all-zero 21-point query against
the all-zero 63-scalar stored entry. -/
theorem per_entry_similarity_witness :
    entrySimilarity zeroNormQ zeroFlat =
      some (1 / (1 + meanR (lowestK 16 (jointDistances zeroNormQ zeroNormQ)))) := by
  obtain ⟨sn, hn, hlen, hd, hform, hbounds, hmono⟩ :=
    per_entry_similarity zeroNormQ zeroFlat (by simp [zeroNormQ]) (by simp [zeroFlat])
  have hsn : sn = zeroNormQ := by
    have h2 := normalizeFlat_zeroFlat
    rw [hn] at h2
    exact Option.some_inj.mp h2
  rw [hsn] at hform
  exact hform

/-- Claim C2: for a 21-point landmark list, normalization subtracts point 0
(the wrist) from every point, divides every coordinate by the Euclidean norm
of the centered point at index 9 exactly when that norm is positive, leaves
the centered points unscaled otherwise, and the resulting point 0 is always
the origin. -/
theorem normalize_landmarks_spec (l : List ℝ) (h : l.length = 63) :
    ∃ pts, reshape3 l = some pts ∧ pts.length = 21 ∧
      ∃ w ref, pts.head? = some w ∧
        (pts.map (fun p => psub p w))[9]? = some ref ∧
        normalizePoints pts =
          some (if 0 < norm3 ref then
                  (pts.map (fun p => psub p w)).map (fun p => pdiv p (norm3 ref))
                else pts.map (fun p => psub p w)) ∧
        ∀ res, normalizePoints pts = some res → res.head? = some p0 := by
  obtain ⟨pts, hpts, hlen⟩ := reshape3_of_length (l := l) (n := 21) (by omega)
  obtain ⟨w, ref, hw, href, hnorm⟩ := normalizePoints_char pts (by omega)
  refine ⟨pts, hpts, hlen, w, ref, hw, href, hnorm, ?_⟩
  intro res hres
  rw [hnorm, Option.some_inj] at hres
  subst hres
  split
  · rw [List.head?_map, List.head?_map, hw]
    simp
  · rw [List.head?_map, hw]
    simp

/-- Witness for C2: normalizing the all-zero 63-scalar landmark list yields
a point list whose point 0 is the origin. -/
theorem normalize_landmarks_spec_witness :
    (normalizePoints (List.replicate 21 p0)).bind List.head? = some p0 := by
  obtain ⟨pts, hpts, hlen, w, ref, hw, href, hnorm, hhead⟩ :=
    normalize_landmarks_spec zeroFlat (by simp [zeroFlat])
  have hz : zeroFlat = List.replicate (3 * 21) (0 : ℝ) := by norm_num [zeroFlat]
  have hpts0 : pts = List.replicate 21 p0 := by
    have h2 := reshape3_replicate_zero 21
    rw [← hz, hpts] at h2
    exact Option.some_inj.mp h2
  rw [normalizePoints_replicate_zero, Option.some_bind]
  exact hhead (List.replicate 21 p0)
    (by rw [hpts0]; exact normalizePoints_replicate_zero)

/-- Claim C3: when the library holds exactly one pose under the identifier
`fist` with a 21-point landmark array `F` and the query equals `F`, the
matcher returns that entry with best similarity exactly 1, for any threshold
at most 1. -/
theorem exact_match_returns_one (F : List ℝ) (g : Gesture) (threshold : ℝ)
    (hF : F.length = 63) (hg : g.landmarks = F) (hth : threshold ≤ 1) :
    find_similar_gesture F [("fist", g)] threshold = some ("fist", g) ∧
    ∀ normQ, normalizeFlat F = some normQ →
      (bestMatch normQ [("fist", g)]).2 = 1 := by
  obtain ⟨sn, hn, hlen⟩ := normalizeFlat_of_length hF
  have hFne : F ≠ [] := by
    intro h0
    rw [h0] at hF
    simp at hF
  have hsim : entrySimilarity sn g.landmarks = some 1 := by
    rw [hg]
    exact entrySimilarity_self hn
  have hne : g.landmarks.isEmpty = false := by
    rw [hg]
    simpa using hFne
  have hbest : bestMatch sn [("fist", g)] = (some ("fist", g), 1) := by
    simp [bestMatch, bestStep, hsim, hne]
  constructor
  · unfold find_similar_gesture
    rw [if_neg (by simp [hFne])]
    simp only [hn, hbest]
    rw [if_pos hth]
  · intro normQ hnq
    rw [hn, Option.some_inj] at hnq
    rw [← hnq, hbest]

/-- Witness for C3: the all-zero landmark array as the single stored pose
and as the query, with threshold 0.6 (the code default). -/
theorem exact_match_returns_one_witness :
    find_similar_gesture zeroFlat [("fist", G0)] (3 / 5) = some ("fist", G0) ∧
    (bestMatch zeroNormQ [("fist", G0)]).2 = 1 := by
  have h := exact_match_returns_one zeroFlat G0 (3 / 5) (by simp [zeroFlat])
    G0_landmarks (by norm_num)
  exact ⟨h.1, h.2 zeroNormQ normalizeFlat_zeroFlat⟩

/-- Claim C9: normalization is idempotent: when the centered reference joint
(anatomical index 9) of a 21-point set has nonzero norm, normalizing the
already-normalized set returns it unchanged (exactly, in real arithmetic:
the renormalized wrist is the origin and the new reference norm is 1). -/
theorem normalize_idempotent (pts res : List Pt) (h21 : pts.length = 21)
    (hscale : 0 < norm3 (psub (pts.getD 9 p0) (pts.getD 0 p0)))
    (hres : normalizePoints pts = some res) :
    normalizePoints res = some res := by
  obtain ⟨w, ref, hw, href, hnorm⟩ := normalizePoints_char pts (by omega)
  have h9lt : 9 < pts.length := by omega
  have hw' : pts.getD 0 p0 = w := by
    rw [List.getD_eq_getElem?_getD, ← List.head?_eq_getElem?, hw]
    rfl
  have href' : psub (pts.getD 9 p0) w = ref := by
    have h1 : (pts.map (fun p => psub p w))[9]? = some (psub (pts.getD 9 p0) w) := by
      rw [List.getElem?_map, List.getElem?_eq_getElem h9lt]
      simp [List.getD_eq_getElem?_getD, List.getElem?_eq_getElem h9lt]
    rw [h1, Option.some_inj] at href
    exact href
  rw [hw', href'] at hscale
  have hresval : res = (pts.map (fun p => psub p w)).map (fun p => pdiv p (norm3 ref)) := by
    rw [hnorm, if_pos hscale, Option.some_inj] at hres
    exact hres.symm
  have hreslen : res.length = 21 := by
    rw [hresval]
    simpa using h21
  obtain ⟨w2, ref2, hw2, href2, hnorm2⟩ := normalizePoints_char res (by omega)
  have hw2' : w2 = p0 := by
    rw [hresval, List.head?_map, List.head?_map, hw] at hw2
    simpa using hw2.symm
  have hmapres : res.map (fun p => psub p p0) = res := by
    simp
  have href2' : ref2 = pdiv ref (norm3 ref) := by
    have h2 : (res.map (fun p => psub p p0))[9]? = some (pdiv ref (norm3 ref)) := by
      rw [hmapres, hresval, List.getElem?_map, List.getElem?_map,
        List.getElem?_eq_getElem h9lt]
      have h3 : pts.getD 9 p0 = pts[9] := by
        simp [List.getD_eq_getElem?_getD, List.getElem?_eq_getElem h9lt]
      rw [h3] at href'
      rw [← href']
      rfl
    rw [hw2', h2, Option.some_inj] at href2
    exact href2.symm
  have hn1 : norm3 ref2 = 1 := by
    rw [href2', norm3_pdiv ref hscale, div_self (ne_of_gt hscale)]
  rw [hnorm2, hw2', hn1, if_pos one_pos, hmapres, Option.some_inj]
  simp

/-- Witness for C9: 21 points with the reference joint at `(1, 0, 0)` and
every other point at the origin; its normalization is itself, and
renormalizing changes nothing. -/
theorem normalize_idempotent_witness : normalizePoints ptsC9 = some ptsC9 := by
  have h1 : norm3 ((1 : ℝ), (0 : ℝ), (0 : ℝ)) = 1 := by
    rw [norm3]
    norm_num
  have hres : normalizePoints ptsC9 = some ptsC9 := by
    have hlen : ptsC9.length = 21 := rfl
    obtain ⟨w, ref, hw, href, hnorm⟩ := normalizePoints_char ptsC9 (by omega)
    have hw0 : p0 = w := by
      have hh : ptsC9.head? = some p0 := rfl
      rw [hh, Option.some_inj] at hw
      exact hw
    subst hw0
    have hmap : ptsC9.map (fun p => psub p p0) = ptsC9 := by simp
    rw [hmap] at href
    have h9 : ptsC9[9]? = some (((1 : ℝ), (0 : ℝ), (0 : ℝ)) : Pt) := rfl
    rw [h9, Option.some_inj] at href
    subst href
    rw [hmap] at hnorm
    rw [hnorm, if_pos (show (0 : ℝ) < norm3 (1, 0, 0) by rw [h1]; norm_num), h1]
    simp
  exact normalize_idempotent ptsC9 ptsC9 rfl
    (by
      have hg9 : ptsC9.getD 9 p0 = ((1 : ℝ), (0 : ℝ), (0 : ℝ)) := rfl
      have hg0 : ptsC9.getD 0 p0 = p0 := rfl
      rw [hg9, hg0, psub_p0, h1]
      norm_num)
    hres

end HandGesture
